import Mathlib

/-!
# Transport abstraction and client lifecycle of `requests` (client.go)

A shallow embedding of `src/client.go`.  Go pointers are addresses into typed
heaps held by a `World`; a nilable pointer or interface is an `Option`.  A call
that would dereference a nil pointer or call a method on a nil interface
returns `none`.  Code of the package that lives outside `client.go` is taken
as a parameter, collected in `Env` (`parseProxy`, `Response.Request`), or
modelled from the spec (`NewJar`, `newRoundTripper`, the fingerprinting
transport's `closeConns`).
-/

namespace Requests

/-! ## Values of the Go runtime and standard library -/

/-- A non-nil Go `error`; the nil error is `none : Option GoError`. -/
structure GoError where
  msg : String
deriving DecidableEq, Repr

/-- The standard library's `errors.New`: always a non-nil error carrying the text. -/
def errors.New (text : String) : GoError := ⟨text⟩

/-- An address in one of the heaps of the `World`. -/
abbrev Ptr := Nat

/-- The part of `*http.Request` the adapter hands on. -/
structure HttpRequest where
  method : String
  url : String
deriving DecidableEq, Repr

/-- The part of `*http.Response` a caller looks at. -/
structure HttpResponse where
  status : Nat
  body : String
deriving DecidableEq, Repr

/-- A value of the interface `ClientSessionCache` (of `crypto/tls` or of `utls`): the
bounded LRU cache of the library, or some other implementation a caller wrote. -/
inductive SessionCache
  | lru (capacity : Nat)
  | custom (id : Nat)
deriving DecidableEq, Repr

/-- Capacity the library uses when asked for a cache of capacity below one. -/
def lruSessionCacheDefaultCapacity : Nat := 64

/-- The library function `NewLRUClientSessionCache` of `crypto/tls` (and its copy in `utls`):
an LRU cache of the given capacity, of the default capacity when the argument is below one. -/
def NewLRUClientSessionCache (capacity : Int) : SessionCache :=
  if capacity < 1 then .lru lruSessionCacheDefaultCapacity else .lru capacity.toNat

/-- The fields of `tls.Config` that `NewClient` sets; `rest` stands for all the others
(empty in a composite literal that does not mention them). -/
structure TlsConfig where
  InsecureSkipVerify : Bool
  ClientSessionCache : Option SessionCache
  rest : List (String × String)
deriving DecidableEq, Repr

/-- The fields of `utls.Config` that `NewClient` sets; `rest` stands for all the others. -/
structure UtlsConfig where
  InsecureSkipVerify : Bool
  ClientSessionCache : Option SessionCache
  InsecureSkipTimeVerify : Bool
  OmitEmptyPsk : Bool
  PreferSkipResumptionOnNilExtension : Bool
  rest : List (String × String)
deriving DecidableEq, Repr

/-- A non-nil `context.Context`: `context.TODO()`, or a context made by
`context.WithCancel` from a parent, whose own done flag lives at `id` in the world. -/
inductive Context
  | TODO
  | cancelCtx (parent : Context) (id : Ptr)
deriving DecidableEq, Repr

/-- Dynamic type of a value of the interface `http.RoundTripper`: `*http.Transport`, or any
other type, which may or may not have a method `CloseIdleConnections` of its own. -/
inductive DynType
  | httpTransport
  | custom (closeIdler : Bool)
deriving DecidableEq, Repr

/-- An object behind an `http.RoundTripper`: its dynamic type, its pool of idle
connections, the requests its `RoundTrip` has received so far, and what its `RoundTrip`
returns for a request (the network is outside the model, so the answer is a function
of the request). -/
structure TransportObj where
  dyn : DynType
  idle : Nat
  calls : List HttpRequest
  reply : HttpRequest → Option HttpResponse × Option GoError

/-- Whether the object has a method `CloseIdleConnections`. -/
def TransportObj.closeIdler (t : TransportObj) : Bool :=
  match t.dyn with
  | .httpTransport => true
  | .custom b => b

/-- The method `CloseIdleConnections` of a transport that has one: the idle pool is released,
nothing else changes. -/
def TransportObj.CloseIdleConnections (t : TransportObj) : TransportObj :=
  { t with idle := 0 }

/-- A non-nil value of the interface `http.RoundTripper`: a pointer to a transport object, or
the nil pointer of type `*http.Transport` (an interface that holds a typed nil pointer is not
the nil interface). -/
inductive RoundTripper
  | obj (p : Ptr)
  | nilHttpTransport
deriving DecidableEq, Repr

/-- A cookie store. -/
structure Jar where
  cookies : List (String × String)
deriving DecidableEq, Repr

/-- The fingerprinting transport `*roundTripper`: the lifetime scope it was built from and
the number of connections in its pools (its definition is outside `client.go`). -/
structure roundTripper where
  ctx : Context
  pools : Nat
deriving DecidableEq, Repr

/-- The heaps: every object a pointer of the program can point to. -/
structure World where
  tlsConfigs : List TlsConfig
  utlsConfigs : List UtlsConfig
  jars : List Jar
  ctxDone : List Bool
  transports : List TransportObj
  roundTrippers : List roundTripper

/-- Whether the context is done: its own flag is set, or an ancestor is done. -/
def Context.done (w : World) : Context → Bool
  | .TODO => false
  | .cancelCtx parent id => (w.ctxDone[id]?).getD false || parent.done w

/-- The standard library's `context.WithCancel`: a new child context with a fresh, unset
done flag, and the address of that flag, which is what its `CancelFunc` sets. -/
def context.WithCancel (parent : Context) (w : World) : (Context × Ptr) × World :=
  ((.cancelCtx parent w.ctxDone.length, w.ctxDone.length),
    { w with ctxDone := w.ctxDone ++ [false] })

/-- Calling a `CancelFunc`: the flag is set; calling it again changes nothing. -/
def CancelFunc.call (id : Ptr) (w : World) : World :=
  { w with ctxDone := w.ctxDone.set id true }

/-! ## The package outside client.go -/

/-- The dynamic value of the option `Proxy` (declared `any`). -/
abbrev ProxyValue := String

/-- The struct `ClientOption`, declared outside `client.go`: the fields `NewClient` reads, and
`rest` for all the others. -/
structure ClientOption where
  Transport : Option RoundTripper
  TlsConfig : Option Ptr
  UtlsConfig : Option Ptr
  DisCookie : Bool
  Jar : Option Ptr
  Proxy : Option ProxyValue
  rest : List (String × String)
deriving DecidableEq, Repr

/-- The zero value of `ClientOption` (`var option ClientOption`). -/
def ClientOption.zero : ClientOption :=
  { Transport := none, TlsConfig := none, UtlsConfig := none, DisCookie := false,
    Jar := none, Proxy := none, rest := [] }

/-- The struct `Response`, declared outside `client.go`: the field `response` that the adapter
writes, and `rest` for all the others. -/
structure Response where
  response : Option HttpResponse
  rest : Nat
deriving DecidableEq, Repr

/-- Functions of the package that `client.go` calls and does not define. -/
structure Env where
  /-- The function `parseProxy`: the parsed address and the error. -/
  parseProxy : ProxyValue → Option String × Option GoError
  /-- Number of pooled connections of a transport that `newRoundTripper` has just built. -/
  newPools : Context → Nat
  /-- The method `Response.Request`. -/
  Request : Response → HttpRequest

/-- Modelled from the spec: `NewJar`, the no-argument constructor of the default cookie store
(its code is outside `client.go`): a new, empty store. -/
def NewJar (w : World) : Ptr × World :=
  (w.jars.length, { w with jars := w.jars ++ [⟨[]⟩] })

/-- Modelled from the spec: `newRoundTripper` (its code is outside `client.go`), which builds the
fingerprinting transport from the lifetime scope: a new transport object holding that scope. -/
def newRoundTripper (env : Env) (ctx : Context) (w : World) : Ptr × World :=
  (w.roundTrippers.length,
    { w with roundTrippers := w.roundTrippers ++ [⟨ctx, env.newPools ctx⟩] })

/-- Modelled from the spec: the method `closeConns` of the fingerprinting transport at address
`p` (its code is outside `client.go`). The spec has the owned transport release its pooled,
currently unused connections: the pool is emptied, nothing else changes. `none` for a
pointer to no object. -/
def roundTripper.closeConns (p : Ptr) (w : World) : Option World :=
  match w.roundTrippers[p]? with
  | some t => some { w with roundTrippers := w.roundTrippers.set p { t with pools := 0 } }
  | none => none

/-! ## client.go -/

/-- The adapter around a standard `http.RoundTripper`; `tr` is the wrapped interface value. -/
structure standardRoundTripperAdapter where
  tr : RoundTripper
deriving DecidableEq, Repr

/-- The call `a.tr.RoundTrip(req)`: the wrapped object records the request and answers.
`none` when the call panics: `RoundTrip` of `*http.Transport` on the nil pointer, or a
pointer to no object. -/
def http.RoundTripper.RoundTrip (tr : RoundTripper) (req : HttpRequest) (w : World) :
    Option ((Option HttpResponse × Option GoError) × World) :=
  match tr with
  | .nilHttpTransport => none
  | .obj p =>
    match w.transports[p]? with
    | some t =>
      some (t.reply req,
        { w with transports := w.transports.set p { t with calls := t.calls ++ [req] } })
    | none => none

/-- The method `standardRoundTripperAdapter.RoundTrip`: the response object after the call, and
the returned error. -/
def standardRoundTripperAdapter.RoundTrip (env : Env) (a : standardRoundTripperAdapter)
    (resp : Response) (w : World) : Option ((Response × Option GoError) × World) :=
  let req := env.Request resp
  match http.RoundTripper.RoundTrip a.tr req w with
  | none => none
  | some ((httpResp, err), w) =>
    match err with
    | some e => some ((resp, some e), w)
    | none => some (({ resp with response := httpResp }, none), w)

/-- An `io.ReadCloser`: whether it has been closed, and the error its `Close` returns. -/
structure ReadCloser where
  closed : Bool
  closeErr : Option GoError
deriving DecidableEq, Repr

/-- The stand-in connection of adapter mode. -/
structure dummyConn where
  body : ReadCloser
  ctx : Context
deriving DecidableEq, Repr

/-- The method `dummyConn.CloseWithError`: closes the body and returns the error of that
`Close`; the argument is dropped. -/
def dummyConn.CloseWithError (d : dummyConn) (_err : Option GoError) :
    dummyConn × Option GoError :=
  ({ d with body := { d.body with closed := true } }, d.body.closeErr)

/-- The method `dummyConn.DoRequest`. -/
def dummyConn.DoRequest (d : dummyConn) (_req : Option HttpRequest)
    (_headers : List (String × String)) : Option HttpResponse × Context × Option GoError :=
  (none, d.ctx, some (errors.New "dummy connection does not support DoRequest"))

/-- The method `dummyConn.CloseCtx`. -/
def dummyConn.CloseCtx (d : dummyConn) : Context := d.ctx

/-- A duplex stream (`io.ReadWriteCloser`). -/
structure Stream where
  id : Nat
deriving DecidableEq, Repr

/-- The method `dummyConn.Stream`. -/
def dummyConn.Stream (_d : dummyConn) : Option Stream := none

/-- The method `standardRoundTripperAdapter.closeConns`: the type assertion
`a.tr.(*http.Transport)`, and `CloseIdleConnections` on the transport when it holds. The
assertion holds for the nil pointer of that type too, and `CloseIdleConnections` on the nil
pointer panics: `none`. A pointer to no object is no state of the program: `none`. -/
def standardRoundTripperAdapter.closeConns (a : standardRoundTripperAdapter) (w : World) :
    Option World :=
  match a.tr with
  | .nilHttpTransport => none
  | .obj p =>
    match w.transports[p]? with
    | some t =>
      match t.dyn with
      | .httpTransport => some { w with transports := w.transports.set p t.CloseIdleConnections }
      | .custom _ => some w
    | none => none

/-- A non-nil value of the interface `requestRoundTripper`: the adapter, or the fingerprinting
transport at an address. -/
inductive requestRoundTripper
  | adapter (a : standardRoundTripperAdapter)
  | fingerprint (p : Ptr)
deriving DecidableEq, Repr

/-- The interface method `closeConns`, dispatched on the dynamic type. -/
def requestRoundTripper.closeConns (t : requestRoundTripper) (w : World) :
    Option World :=
  match t with
  | .adapter a => a.closeConns w
  | .fingerprint p => roundTripper.closeConns p w

/-- The struct `Client`. -/
structure Client where
  ctx : Option Context
  transport : Option requestRoundTripper
  cnl : Option Ptr
  ClientOption : ClientOption
  closed : Bool
deriving DecidableEq, Repr

/-- The zero value of `Client` (`new(Client)`). -/
def Client.zero : Client :=
  { ctx := none, transport := none, cnl := none, ClientOption := ClientOption.zero,
    closed := false }

/-- The option `NewClient` works with (lines 83 to 86): the zero value, or the first of the
options when there is one. -/
def NewClient.option (options : List ClientOption) : ClientOption :=
  match options with
  | [] => ClientOption.zero
  | o :: _ => o

/-- The function `NewClient`: the client, the error, and the world after the call. -/
def NewClient (env : Env) (preCtx : Option Context) (options : List ClientOption) (w : World) :
    (Client × Option GoError) × World :=
  let preCtx := match preCtx with
    | none => Context.TODO
    | some c => c
  let option := NewClient.option options
  let result := Client.zero
  let made := context.WithCancel preCtx w
  let result := { result with ctx := some made.1.1, cnl := some made.1.2 }
  let w := made.2
  let built := match option.Transport with
    | some tr => (requestRoundTripper.adapter { tr := tr }, w)
    | none =>
      let trp := newRoundTripper env made.1.1 w
      (requestRoundTripper.fingerprint trp.1, trp.2)
  let result := { result with transport := some built.1 }
  let w := built.2
  let result := { result with ClientOption := option }
  let tlsStep := match result.ClientOption.TlsConfig with
    | none =>
      ({ result with ClientOption := { result.ClientOption with TlsConfig := some w.tlsConfigs.length } },
        { w with tlsConfigs := w.tlsConfigs ++
            [({ InsecureSkipVerify := true,
                ClientSessionCache := some (NewLRUClientSessionCache 0),
                rest := [] } : TlsConfig)] })
    | some _ => (result, w)
  let result := tlsStep.1
  let w := tlsStep.2
  let utlsStep := match result.ClientOption.UtlsConfig with
    | none =>
      ({ result with ClientOption := { result.ClientOption with UtlsConfig := some w.utlsConfigs.length } },
        { w with utlsConfigs := w.utlsConfigs ++
            [({ InsecureSkipVerify := true,
                ClientSessionCache := some (NewLRUClientSessionCache 0),
                InsecureSkipTimeVerify := true,
                OmitEmptyPsk := true,
                PreferSkipResumptionOnNilExtension := true,
                rest := [] } : UtlsConfig)] })
    | some _ => (result, w)
  let result := utlsStep.1
  let w := utlsStep.2
  let jarStep :=
    if !result.ClientOption.DisCookie then
      match result.ClientOption.Jar with
      | none =>
        let jar := NewJar w
        ({ result with ClientOption := { result.ClientOption with Jar := some jar.1 } }, jar.2)
      | some _ => (result, w)
    else (result, w)
  let result := jarStep.1
  let w := jarStep.2
  let err := match result.ClientOption.Proxy with
    | some p => (env.parseProxy p).2
    | none => none
  ((result, err), w)

/-- The method `Client.CloseConns`; `none` when it panics: the transport is the nil interface,
or its `closeConns` panics. -/
def Client.CloseConns (obj : Client) (w : World) : Option World :=
  match obj.transport with
  | none => none
  | some t => t.closeConns w

/-- The method `Client.Close`; `none` when it panics: in `CloseConns`, or on a nil cancel
function. -/
def Client.Close (obj : Client) (w : World) : Option (Client × World) :=
  let obj := { obj with closed := true }
  match obj.CloseConns w with
  | none => none
  | some w =>
    match obj.cnl with
    | none => none
    | some cnl => some (obj, CancelFunc.call cnl w)

/-! ## Definitions used in the statements -/

/-- The composite literal `&tls.Config{...}` of lines 101 to 104. -/
def defaultTlsConfig : TlsConfig :=
  { InsecureSkipVerify := true, ClientSessionCache := some (NewLRUClientSessionCache 0), rest := [] }

/-- The composite literal `&utls.Config{...}` of lines 107 to 113. -/
def defaultUtlsConfig : UtlsConfig :=
  { InsecureSkipVerify := true, ClientSessionCache := some (NewLRUClientSessionCache 0),
    InsecureSkipTimeVerify := true, OmitEmptyPsk := true,
    PreferSkipResumptionOnNilExtension := true, rest := [] }

/-- The lifetime scope `NewClient` derives: a child of the parent scope, of `context.TODO()`
when the parent is nil, with its done flag at the next free address. -/
def derivedCtx (preCtx : Option Context) (w : World) : Context :=
  .cancelCtx (preCtx.getD .TODO) w.ctxDone.length

/-- A call of one of the two shutdown methods of a client. -/
inductive LifecycleCall
  | Close
  | CloseConns
deriving DecidableEq, Repr

/-- One call on a client: the client and the world after it, `none` when it panics. -/
def LifecycleCall.run (call : LifecycleCall) (s : Client × World) :
    Option (Client × World) :=
  match call with
  | .Close => s.1.Close s.2
  | .CloseConns => (s.1.CloseConns s.2).map (fun w => (s.1, w))

/-- A sequence of calls on a client, one after the other. -/
def runCalls : List LifecycleCall → Client × World → Option (Client × World)
  | [], s => some s
  | call :: calls, s => (call.run s).bind (runCalls calls)

/-- The claim on `closeConns` in the spec's words, first part: when the wrapped transport
exposes an idle-connection-release operation, `closeConns` forwards to it, so afterwards the
transport is as that operation leaves it. -/
def ForwardsWhenExposed (a : standardRoundTripperAdapter) (w : World) : Prop :=
  ∀ p t, a.tr = RoundTripper.obj p → w.transports[p]? = some t → t.closeIdler = true →
    ∃ w1, a.closeConns w = some w1 ∧ w1.transports[p]? = some t.CloseIdleConnections

/-- The claim on `closeConns` in the spec's words, second part: it never panics. -/
def NeverPanics (a : standardRoundTripperAdapter) (w : World) : Prop :=
  ∃ w1, a.closeConns w = some w1

/-- A world with no object. -/
def World.empty : World :=
  { tlsConfigs := [], utlsConfigs := [], jars := [], ctxDone := [], transports := [],
    roundTrippers := [] }

/-- A sample environment: every proxy but the empty one parses, a new fingerprinting transport
holds three pooled connections, and every response is for the same request. -/
def sampleEnv : Env :=
  { parseProxy := fun p => if p = "" then (none, some (errors.New "invalid proxy")) else (some p, none),
    newPools := fun _ => 3,
    Request := fun _ => { method := "GET", url := "https://httpbin.org/anything" } }

/-- A stub transport that answers every request with the body "ok". -/
def stubTransport : TransportObj :=
  { dyn := .custom false, idle := 0, calls := [],
    reply := fun _ => (some { status := 200, body := "ok" }, none) }

/-- A transport of the caller's own type that has a method `CloseIdleConnections` and holds
three idle connections. -/
def pooledTransport : TransportObj :=
  { dyn := .custom true, idle := 3, calls := [],
    reply := fun _ => (some { status := 200, body := "ok" }, none) }

/-- A standard `*http.Transport` that holds three idle connections. -/
def idleHttpTransport : TransportObj :=
  { dyn := .httpTransport, idle := 3, calls := [],
    reply := fun _ => (some { status := 200, body := "ok" }, none) }

/-- A world whose only object is the given transport, at address 0. -/
def World.ofTransport (t : TransportObj) : World :=
  { World.empty with transports := [t] }

/-- The transport can be called: the adapter wraps a pointer to a transport object of the
world (not the nil `*http.Transport`), or the fingerprinting transport is an object of the
world. -/
def requestRoundTripper.Usable (t : requestRoundTripper) (w : World) : Prop :=
  match t with
  | .adapter a => ∃ p, a.tr = RoundTripper.obj p ∧ p < w.transports.length
  | .fingerprint p => p < w.roundTrippers.length

/-- A client as `NewClient` leaves it and the shutdown methods keep it: the transport is set
and can be called, the cancel function is set, and the lifetime scope is a context whose done
flag, an object of the world, is the one the cancel function sets. -/
def Client.Built (c : Client) (w : World) : Prop :=
  ∃ t id parent, c.transport = some t ∧ t.Usable w ∧ c.cnl = some id
    ∧ c.ctx = some (Context.cancelCtx parent id) ∧ id < w.ctxDone.length

/-- A client after `Close`: built, marked closed, and the done flag of its scope set. -/
def Client.Shut (c : Client) (w : World) : Prop :=
  c.closed = true ∧ ∃ t id parent, c.transport = some t ∧ t.Usable w ∧ c.cnl = some id
    ∧ c.ctx = some (Context.cancelCtx parent id) ∧ w.ctxDone[id]? = some true

/-- An option whose `Transport` holds the nil pointer of type `*http.Transport`. -/
def nilTransportOption : ClientOption :=
  { ClientOption.zero with Transport := some RoundTripper.nilHttpTransport }

/-- An option whose `Transport` points to the transport object at address 0. -/
def firstTransportOption : ClientOption :=
  { ClientOption.zero with Transport := some (RoundTripper.obj 0) }

/-! ## Lemmas on `NewClient` -/

theorem NewClient_ctx (env : Env) (preCtx : Option Context) (options : List ClientOption)
    (w : World) :
    (NewClient env preCtx options w).1.1.ctx = some (derivedCtx preCtx w)
    ∧ (NewClient env preCtx options w).1.1.cnl = some w.ctxDone.length
    ∧ (NewClient env preCtx options w).1.1.closed = false
    ∧ (NewClient env preCtx options w).2.ctxDone = w.ctxDone ++ [false]
    ∧ (NewClient env preCtx options w).2.transports = w.transports := by
  unfold NewClient
  cases preCtx <;>
  cases h0 : (NewClient.option options).Transport <;>
  cases h1 : (NewClient.option options).TlsConfig <;>
  cases h2 : (NewClient.option options).UtlsConfig <;>
  cases h3 : (NewClient.option options).DisCookie <;>
  cases h4 : (NewClient.option options).Jar <;>
  simp [h0, h1, h2, h3, h4, derivedCtx, context.WithCancel, Client.zero, NewJar, newRoundTripper]

theorem NewClient_transport (env : Env) (preCtx : Option Context) (options : List ClientOption)
    (w : World) :
    (NewClient env preCtx options w).1.1.transport =
      (match (NewClient.option options).Transport with
        | some tr => some (requestRoundTripper.adapter { tr := tr })
        | none => some (requestRoundTripper.fingerprint w.roundTrippers.length))
    ∧ (NewClient env preCtx options w).2.roundTrippers =
      (match (NewClient.option options).Transport with
        | some _ => w.roundTrippers
        | none => w.roundTrippers ++
            [{ ctx := derivedCtx preCtx w, pools := env.newPools (derivedCtx preCtx w) }]) := by
  unfold NewClient
  cases preCtx <;>
  cases h0 : (NewClient.option options).Transport <;>
  cases h1 : (NewClient.option options).TlsConfig <;>
  cases h2 : (NewClient.option options).UtlsConfig <;>
  cases h3 : (NewClient.option options).DisCookie <;>
  cases h4 : (NewClient.option options).Jar <;>
  simp [h0, h1, h2, h3, h4, derivedCtx, context.WithCancel, Client.zero, NewJar, newRoundTripper]

theorem NewClient_TlsConfig (env : Env) (preCtx : Option Context) (options : List ClientOption)
    (w : World) :
    (NewClient env preCtx options w).1.1.ClientOption.TlsConfig =
      (match (NewClient.option options).TlsConfig with
        | some p => some p
        | none => some w.tlsConfigs.length)
    ∧ (NewClient env preCtx options w).2.tlsConfigs =
      (match (NewClient.option options).TlsConfig with
        | some _ => w.tlsConfigs
        | none => w.tlsConfigs ++ [defaultTlsConfig]) := by
  unfold NewClient
  cases preCtx <;>
  cases h0 : (NewClient.option options).Transport <;>
  cases h1 : (NewClient.option options).TlsConfig <;>
  cases h2 : (NewClient.option options).UtlsConfig <;>
  cases h3 : (NewClient.option options).DisCookie <;>
  cases h4 : (NewClient.option options).Jar <;>
  simp [h0, h1, h2, h3, h4, defaultTlsConfig, context.WithCancel, Client.zero, NewJar,
    newRoundTripper]

theorem NewClient_UtlsConfig (env : Env) (preCtx : Option Context) (options : List ClientOption)
    (w : World) :
    (NewClient env preCtx options w).1.1.ClientOption.UtlsConfig =
      (match (NewClient.option options).UtlsConfig with
        | some p => some p
        | none => some w.utlsConfigs.length)
    ∧ (NewClient env preCtx options w).2.utlsConfigs =
      (match (NewClient.option options).UtlsConfig with
        | some _ => w.utlsConfigs
        | none => w.utlsConfigs ++ [defaultUtlsConfig]) := by
  unfold NewClient
  cases preCtx <;>
  cases h0 : (NewClient.option options).Transport <;>
  cases h1 : (NewClient.option options).TlsConfig <;>
  cases h2 : (NewClient.option options).UtlsConfig <;>
  cases h3 : (NewClient.option options).DisCookie <;>
  cases h4 : (NewClient.option options).Jar <;>
  simp [h0, h1, h2, h3, h4, defaultUtlsConfig, context.WithCancel, Client.zero, NewJar,
    newRoundTripper]

theorem NewClient_Jar (env : Env) (preCtx : Option Context) (options : List ClientOption)
    (w : World) :
    (NewClient env preCtx options w).1.1.ClientOption.Jar =
      (if (NewClient.option options).DisCookie then (NewClient.option options).Jar
        else match (NewClient.option options).Jar with
          | some j => some j
          | none => some w.jars.length)
    ∧ (NewClient env preCtx options w).2.jars =
      (if (NewClient.option options).DisCookie then w.jars
        else match (NewClient.option options).Jar with
          | some _ => w.jars
          | none => w.jars ++ [{ cookies := [] }]) := by
  unfold NewClient
  cases preCtx <;>
  cases h0 : (NewClient.option options).Transport <;>
  cases h1 : (NewClient.option options).TlsConfig <;>
  cases h2 : (NewClient.option options).UtlsConfig <;>
  cases h3 : (NewClient.option options).DisCookie <;>
  cases h4 : (NewClient.option options).Jar <;>
  simp [h0, h1, h2, h3, h4, context.WithCancel, Client.zero, NewJar, newRoundTripper]

theorem NewClient_rest (env : Env) (preCtx : Option Context) (options : List ClientOption)
    (w : World) :
    (NewClient env preCtx options w).1.1.ClientOption.Proxy = (NewClient.option options).Proxy
    ∧ (NewClient env preCtx options w).1.1.ClientOption.Transport
        = (NewClient.option options).Transport
    ∧ (NewClient env preCtx options w).1.1.ClientOption.DisCookie
        = (NewClient.option options).DisCookie
    ∧ (NewClient env preCtx options w).1.1.ClientOption.rest = (NewClient.option options).rest := by
  unfold NewClient
  cases h1 : (NewClient.option options).TlsConfig <;>
  cases h2 : (NewClient.option options).UtlsConfig <;>
  cases h3 : (NewClient.option options).DisCookie <;>
  cases h4 : (NewClient.option options).Jar <;>
  simp [h1, h2, h3, h4]

theorem NewClient_err (env : Env) (preCtx : Option Context) (options : List ClientOption)
    (w : World) :
    (NewClient env preCtx options w).1.2 =
      (match (NewClient.option options).Proxy with
        | some p => (env.parseProxy p).2
        | none => none) := by
  have h := (NewClient_rest env preCtx options w).1
  unfold NewClient at h ⊢
  simp only [] at h ⊢
  rw [h]

/-! ## The construction contract -/

/-- C1: `NewClient` returns a non-nil error only when proxy validation fails. With no option
the error is nil. With options `o :: os` (only the first, `o`, counts): when `o.Proxy` is nil
the error is nil; when it is a value `p` the error is exactly the error `parseProxy` returns
on `p`; and whatever the parent scope, the world, the later options and the other fields of
the option are, the error is the same. -/
theorem NewClient_error_only_from_proxy (env : Env) (preCtx : Option Context) (w : World) :
    (NewClient env preCtx [] w).1.2 = none
    ∧ (∀ (o : ClientOption) (os : List ClientOption), o.Proxy = none →
        (NewClient env preCtx (o :: os) w).1.2 = none)
    ∧ (∀ (o : ClientOption) (os : List ClientOption) (p : ProxyValue), o.Proxy = some p →
        (NewClient env preCtx (o :: os) w).1.2 = (env.parseProxy p).2)
    ∧ (∀ (o o1 : ClientOption) (os os1 : List ClientOption) (preCtx1 : Option Context)
        (w1 : World), o1.Proxy = o.Proxy →
        (NewClient env preCtx1 (o1 :: os1) w1).1.2 = (NewClient env preCtx (o :: os) w).1.2) := by
  refine ⟨?_, fun o os h => ?_, fun o os p h => ?_, fun o o1 os os1 preCtx1 w1 h => ?_⟩
  · rw [NewClient_err]
    rfl
  · rw [NewClient_err]
    simp [NewClient.option, h]
  · rw [NewClient_err]
    simp [NewClient.option, h]
  · rw [NewClient_err, NewClient_err]
    simp [NewClient.option, h]

/-- C2: with options `o :: os`, a `TlsConfig` that `o` supplies is the client's `TlsConfig` (the
same address) and no TLS configuration object of the heap is written or created, so every
field of the caller's object is as the caller left it; likewise for `UtlsConfig`. The
resolution of each field depends on that field only: another first option with the same
`TlsConfig` resolves it the same way whatever its `UtlsConfig` and other fields are, and
conversely. -/
theorem NewClient_supplied_config_verbatim (env : Env) (preCtx : Option Context) (w : World) :
    (∀ (o : ClientOption) (os : List ClientOption) (p : Ptr), o.TlsConfig = some p →
        (NewClient env preCtx (o :: os) w).1.1.ClientOption.TlsConfig = some p
        ∧ (NewClient env preCtx (o :: os) w).2.tlsConfigs = w.tlsConfigs)
    ∧ (∀ (o : ClientOption) (os : List ClientOption) (p : Ptr), o.UtlsConfig = some p →
        (NewClient env preCtx (o :: os) w).1.1.ClientOption.UtlsConfig = some p
        ∧ (NewClient env preCtx (o :: os) w).2.utlsConfigs = w.utlsConfigs)
    ∧ (∀ (o o1 : ClientOption) (os os1 : List ClientOption) (preCtx1 : Option Context),
        o1.TlsConfig = o.TlsConfig →
        (NewClient env preCtx1 (o1 :: os1) w).1.1.ClientOption.TlsConfig
          = (NewClient env preCtx (o :: os) w).1.1.ClientOption.TlsConfig
        ∧ (NewClient env preCtx1 (o1 :: os1) w).2.tlsConfigs
          = (NewClient env preCtx (o :: os) w).2.tlsConfigs)
    ∧ (∀ (o o1 : ClientOption) (os os1 : List ClientOption) (preCtx1 : Option Context),
        o1.UtlsConfig = o.UtlsConfig →
        (NewClient env preCtx1 (o1 :: os1) w).1.1.ClientOption.UtlsConfig
          = (NewClient env preCtx (o :: os) w).1.1.ClientOption.UtlsConfig
        ∧ (NewClient env preCtx1 (o1 :: os1) w).2.utlsConfigs
          = (NewClient env preCtx (o :: os) w).2.utlsConfigs) := by
  refine ⟨fun o os p h => ?_, fun o os p h => ?_, fun o o1 os os1 preCtx1 h => ?_,
    fun o o1 os os1 preCtx1 h => ?_⟩
  · have h1 := NewClient_TlsConfig env preCtx (o :: os) w
    simp only [NewClient.option, h] at h1
    exact h1
  · have h1 := NewClient_UtlsConfig env preCtx (o :: os) w
    simp only [NewClient.option, h] at h1
    exact h1
  · have h1 := NewClient_TlsConfig env preCtx (o :: os) w
    have h2 := NewClient_TlsConfig env preCtx1 (o1 :: os1) w
    simp only [NewClient.option] at h1 h2
    rw [h] at h2
    exact ⟨h2.1.trans h1.1.symm, h2.2.trans h1.2.symm⟩
  · have h1 := NewClient_UtlsConfig env preCtx (o :: os) w
    have h2 := NewClient_UtlsConfig env preCtx1 (o1 :: os1) w
    simp only [NewClient.option] at h1 h2
    rw [h] at h2
    exact ⟨h2.1.trans h1.1.symm, h2.2.trans h1.2.symm⟩

/-- C3: when `TlsConfig` is not supplied (nil, which is also the case when no option is given)
the client's `TlsConfig` points to a configuration with `InsecureSkipVerify = true` and an LRU
session cache of the default capacity, 64; when `UtlsConfig` is not supplied the client's
`UtlsConfig` points to a configuration with `InsecureSkipVerify = true`, an LRU session cache
of capacity 64, `InsecureSkipTimeVerify = true`, `OmitEmptyPsk = true` and
`PreferSkipResumptionOnNilExtension = true`. The cache is neither nil nor unbounded. -/
theorem NewClient_default_configs (env : Env) (preCtx : Option Context)
    (options : List ClientOption) (w : World) :
    ((NewClient.option options).TlsConfig = none →
      ∃ p cfg, (NewClient env preCtx options w).1.1.ClientOption.TlsConfig = some p
        ∧ (NewClient env preCtx options w).2.tlsConfigs[p]? = some cfg
        ∧ cfg.InsecureSkipVerify = true
        ∧ cfg.ClientSessionCache = some (SessionCache.lru 64))
    ∧ ((NewClient.option options).UtlsConfig = none →
      ∃ p cfg, (NewClient env preCtx options w).1.1.ClientOption.UtlsConfig = some p
        ∧ (NewClient env preCtx options w).2.utlsConfigs[p]? = some cfg
        ∧ cfg.InsecureSkipVerify = true
        ∧ cfg.ClientSessionCache = some (SessionCache.lru 64)
        ∧ cfg.InsecureSkipTimeVerify = true
        ∧ cfg.OmitEmptyPsk = true
        ∧ cfg.PreferSkipResumptionOnNilExtension = true)
    ∧ (NewClient.option []).TlsConfig = none
    ∧ (NewClient.option []).UtlsConfig = none := by
  refine ⟨fun h => ?_, fun h => ?_, rfl, rfl⟩
  · have h1 := NewClient_TlsConfig env preCtx options w
    rw [h] at h1
    refine ⟨w.tlsConfigs.length, defaultTlsConfig, h1.1, ?_, rfl, rfl⟩
    rw [h1.2]
    simp
  · have h1 := NewClient_UtlsConfig env preCtx options w
    rw [h] at h1
    refine ⟨w.utlsConfigs.length, defaultUtlsConfig, h1.1, ?_, rfl, rfl, rfl, rfl, rfl⟩
    rw [h1.2]
    simp

/-- C8: the transport strategy follows from the option `Transport` alone. With options
`o :: os`: when `o.Transport` is a transport `tr` the client's transport is the adapter around
exactly `tr` and no fingerprinting transport is built; when it is nil the client's transport
is the fingerprinting transport that `newRoundTripper` builds from the client's own lifetime
scope. With no option it is that fingerprinting transport too. A first option with the same
`Transport` gives the same transport, whatever its `TlsConfig`, `UtlsConfig`, `Proxy`, `Jar`
and `DisCookie` are. -/
theorem NewClient_transport_selection (env : Env) (preCtx : Option Context) (w : World) :
    (∀ (o : ClientOption) (os : List ClientOption) (tr : RoundTripper), o.Transport = some tr →
        (NewClient env preCtx (o :: os) w).1.1.transport
          = some (requestRoundTripper.adapter { tr := tr })
        ∧ (NewClient env preCtx (o :: os) w).2.roundTrippers = w.roundTrippers)
    ∧ (∀ (o : ClientOption) (os : List ClientOption), o.Transport = none →
        ∃ ctx, (NewClient env preCtx (o :: os) w).1.1.ctx = some ctx
          ∧ (NewClient env preCtx (o :: os) w).1.1.transport
            = some (requestRoundTripper.fingerprint (newRoundTripper env ctx w).1)
          ∧ (NewClient env preCtx (o :: os) w).2.roundTrippers
            = (newRoundTripper env ctx w).2.roundTrippers)
    ∧ (∃ ctx, (NewClient env preCtx [] w).1.1.ctx = some ctx
          ∧ (NewClient env preCtx [] w).1.1.transport
            = some (requestRoundTripper.fingerprint (newRoundTripper env ctx w).1)
          ∧ (NewClient env preCtx [] w).2.roundTrippers
            = (newRoundTripper env ctx w).2.roundTrippers)
    ∧ (∀ (o o1 : ClientOption) (os os1 : List ClientOption), o1.Transport = o.Transport →
        (NewClient env preCtx (o1 :: os1) w).1.1.transport
          = (NewClient env preCtx (o :: os) w).1.1.transport
        ∧ (NewClient env preCtx (o1 :: os1) w).2.roundTrippers
          = (NewClient env preCtx (o :: os) w).2.roundTrippers) := by
  refine ⟨fun o os tr h => ?_, fun o os h => ?_, ?_, fun o o1 os os1 h => ?_⟩
  · have h1 := NewClient_transport env preCtx (o :: os) w
    simp only [NewClient.option, h] at h1
    exact h1
  · have h1 := NewClient_transport env preCtx (o :: os) w
    simp only [NewClient.option, h] at h1
    exact ⟨derivedCtx preCtx w, (NewClient_ctx env preCtx (o :: os) w).1, h1.1, h1.2⟩
  · have h1 := NewClient_transport env preCtx [] w
    simp only [NewClient.option, ClientOption.zero] at h1
    exact ⟨derivedCtx preCtx w, (NewClient_ctx env preCtx [] w).1, h1.1, h1.2⟩
  · have h1 := NewClient_transport env preCtx (o :: os) w
    have h2 := NewClient_transport env preCtx (o1 :: os1) w
    simp only [NewClient.option] at h1 h2
    rw [h] at h2
    exact ⟨h2.1.trans h1.1.symm, h2.2.trans h1.2.symm⟩

/-- C9: with options `o :: os`: when `o.DisCookie` is false and `o.Jar` is nil the client's
`Jar` is the store `NewJar()` has just built (a new, empty object of the heap); when
`o.DisCookie` is false and `o.Jar` is a store it is that store and no store is built; when
`o.DisCookie` is true no store is built and the field is as the caller gave it, nil
included. With no option the client's `Jar` is the store `NewJar()` has just built. -/
theorem NewClient_cookie_jar (env : Env) (preCtx : Option Context) (w : World) :
    (∀ (o : ClientOption) (os : List ClientOption), o.DisCookie = false → o.Jar = none →
        (NewClient env preCtx (o :: os) w).1.1.ClientOption.Jar = some (NewJar w).1
        ∧ (NewClient env preCtx (o :: os) w).2.jars = (NewJar w).2.jars
        ∧ w.jars[(NewJar w).1]? = none
        ∧ (NewClient env preCtx (o :: os) w).2.jars[(NewJar w).1]? = some { cookies := [] })
    ∧ (∀ (o : ClientOption) (os : List ClientOption) (j : Ptr), o.DisCookie = false →
        o.Jar = some j →
        (NewClient env preCtx (o :: os) w).1.1.ClientOption.Jar = some j
        ∧ (NewClient env preCtx (o :: os) w).2.jars = w.jars)
    ∧ (∀ (o : ClientOption) (os : List ClientOption), o.DisCookie = true →
        (NewClient env preCtx (o :: os) w).1.1.ClientOption.Jar = o.Jar
        ∧ (NewClient env preCtx (o :: os) w).1.1.ClientOption.DisCookie = true
        ∧ (NewClient env preCtx (o :: os) w).2.jars = w.jars)
    ∧ ((NewClient env preCtx [] w).1.1.ClientOption.Jar = some (NewJar w).1
        ∧ (NewClient env preCtx [] w).2.jars = (NewJar w).2.jars) := by
  refine ⟨fun o os hd hj => ?_, fun o os j hd hj => ?_, fun o os hd => ?_, ?_⟩
  · have h1 := NewClient_Jar env preCtx (o :: os) w
    simp only [NewClient.option, hd, hj] at h1
    refine ⟨h1.1, h1.2, ?_, ?_⟩
    · simp [NewJar]
    · rw [h1.2]
      simp [NewJar]
  · have h1 := NewClient_Jar env preCtx (o :: os) w
    simp only [NewClient.option, hd, hj] at h1
    exact h1
  · have h1 := NewClient_Jar env preCtx (o :: os) w
    have h2 := (NewClient_rest env preCtx (o :: os) w).2.2.1
    simp only [NewClient.option, hd] at h1 h2
    exact ⟨h1.1, h2, h1.2⟩
  · have h1 := NewClient_Jar env preCtx [] w
    simp only [NewClient.option, ClientOption.zero] at h1
    exact h1

/-- C10: the client `NewClient` returns does not depend on what `parseProxy` answers: with any
other `parseProxy` (one that accepts the proxy, say) the client and the world are the same.
The client is initialised: its lifetime scope is derived from the parent scope, `NewClient`
leaves the scope's own done flag unset (so the scope is done only when the parent is), the
cancel function and the transport are set, `TlsConfig` and `UtlsConfig` are resolved, a cookie
store is attached unless cookies are disabled, and `closed` is false. -/
theorem NewClient_client_regardless_of_error (env : Env) (preCtx : Option Context)
    (options : List ClientOption) (w : World) :
    (∀ parse : ProxyValue → Option String × Option GoError,
        (NewClient { env with parseProxy := parse } preCtx options w).1.1
          = (NewClient env preCtx options w).1.1
        ∧ (NewClient { env with parseProxy := parse } preCtx options w).2
          = (NewClient env preCtx options w).2)
    ∧ (NewClient env preCtx options w).1.1.ctx = some (derivedCtx preCtx w)
    ∧ (NewClient env preCtx options w).1.1.cnl = some w.ctxDone.length
    ∧ (NewClient env preCtx options w).2.ctxDone[w.ctxDone.length]? = some false
    ∧ (derivedCtx preCtx w).done (NewClient env preCtx options w).2
        = (preCtx.getD Context.TODO).done (NewClient env preCtx options w).2
    ∧ (NewClient env preCtx options w).1.1.transport ≠ none
    ∧ (NewClient env preCtx options w).1.1.ClientOption.TlsConfig ≠ none
    ∧ (NewClient env preCtx options w).1.1.ClientOption.UtlsConfig ≠ none
    ∧ ((NewClient.option options).DisCookie = false →
        (NewClient env preCtx options w).1.1.ClientOption.Jar ≠ none)
    ∧ (NewClient env preCtx options w).1.1.closed = false := by
  have hc := NewClient_ctx env preCtx options w
  have ht := (NewClient_transport env preCtx options w).1
  have htls := (NewClient_TlsConfig env preCtx options w).1
  have hutls := (NewClient_UtlsConfig env preCtx options w).1
  have hjar := (NewClient_Jar env preCtx options w).1
  refine ⟨fun parse => ⟨rfl, rfl⟩, hc.1, hc.2.1, ?_, ?_, ?_, ?_, ?_, fun hd => ?_, hc.2.2.1⟩
  · rw [hc.2.2.2.1]
    simp
  · simp [derivedCtx, Context.done, hc.2.2.2.1]
  · rw [ht]
    cases (NewClient.option options).Transport <;> simp
  · rw [htls]
    cases (NewClient.option options).TlsConfig <;> simp
  · rw [hutls]
    cases (NewClient.option options).UtlsConfig <;> simp
  · rw [hjar, hd]
    cases (NewClient.option options).Jar <;> simp

/-! ## The adapter and its stand-in connection -/

/-- C4: with `tr` a transport object, `RoundTrip` of the adapter hands `resp.Request()` to
`tr.RoundTrip` exactly once (the transport's record of received requests grows by that one
request and nothing else in the world changes). When `tr` answers `(r, nil)` the adapter
returns nil and `resp.response` is `r`; when `tr` answers with an error `e` the adapter
returns `e` and `resp` is as before. -/
theorem adapter_RoundTrip_installs_or_propagates (env : Env) (p : Ptr)
    (resp : Response) (w : World) (t : TransportObj) (h : w.transports[p]? = some t) :
    (∀ r, t.reply (env.Request resp) = (r, none) →
      standardRoundTripperAdapter.RoundTrip env { tr := RoundTripper.obj p } resp w
        = some (({ resp with response := r }, none),
          { w with transports :=
              w.transports.set p { t with calls := t.calls ++ [env.Request resp] } }))
    ∧ (∀ r e, t.reply (env.Request resp) = (r, some e) →
      standardRoundTripperAdapter.RoundTrip env { tr := RoundTripper.obj p } resp w
        = some ((resp, some e),
          { w with transports :=
              w.transports.set p { t with calls := t.calls ++ [env.Request resp] } })) := by
  constructor
  · intro r hr
    simp [standardRoundTripperAdapter.RoundTrip, http.RoundTripper.RoundTrip, h, hr]
  · intro r e hr
    simp [standardRoundTripperAdapter.RoundTrip, http.RoundTripper.RoundTrip, h, hr]

/-- C4 at the stub transport that answers "ok": the adapter returns nil, the response object
holds a response whose body is "ok", and the stub has received exactly the one request. -/
theorem adapter_RoundTrip_stub_ok :
    (World.ofTransport stubTransport).transports[0]? = some stubTransport
    ∧ ∃ r w, standardRoundTripperAdapter.RoundTrip sampleEnv { tr := RoundTripper.obj 0 }
          { response := none, rest := 0 } (World.ofTransport stubTransport) = some ((r, none), w)
        ∧ r.response.map (fun x => x.body) = some "ok"
        ∧ w.transports.map (fun x => x.calls)
          = [[{ method := "GET", url := "https://httpbin.org/anything" }]] :=
  ⟨rfl, _, _,
    (adapter_RoundTrip_installs_or_propagates sampleEnv 0
      { response := none, rest := 0 } (World.ofTransport stubTransport) stubTransport rfl).1
      (some { status := 200, body := "ok" }) rfl,
    rfl, rfl⟩

/-- C5: on every stand-in connection, `DoRequest` returns a nil response and a non-nil error
(the error "dummy connection does not support DoRequest") for every request, the nil request
included, and every header list; its results do not depend on the body; the context it returns
is the connection's; and `Stream` returns nil. -/
theorem dummyConn_unsupported_calls (d : dummyConn) (req : Option HttpRequest)
    (headers : List (String × String)) :
    (d.DoRequest req headers).1 = none
    ∧ (d.DoRequest req headers).2.2 ≠ none
    ∧ (d.DoRequest req headers).2.2
        = some (errors.New "dummy connection does not support DoRequest")
    ∧ (d.DoRequest req headers).2.1 = d.ctx
    ∧ (d.DoRequest none headers).2.2 ≠ none
    ∧ (∀ body : ReadCloser,
        dummyConn.DoRequest { d with body := body } req headers = d.DoRequest req headers)
    ∧ d.Stream = none := by
  simp [dummyConn.DoRequest, dummyConn.Stream]

/-! ## Shutdown -/

theorem getElem?_lt {α : Type} (l : List α) (i : Nat) (x : α) (h : l[i]? = some x) :
    i < l.length := by
  by_contra hge
  rw [List.getElem?_eq_none (Nat.le_of_not_lt hge)] at h
  cases h

theorem set_same {α : Type} (l : List α) (i : Nat) (x : α) (h : l[i]? = some x) :
    l.set i x = l := by
  apply List.ext_getElem?
  intro k
  by_cases hk : i = k
  · subst hk
    rw [List.getElem?_set_self (getElem?_lt l i x h), h]
  · rw [List.getElem?_set_ne hk]

theorem adapter_closeConns_obj (p : Ptr) (w : World) (t : TransportObj)
    (h : w.transports[p]? = some t) :
    standardRoundTripperAdapter.closeConns { tr := RoundTripper.obj p } w
      = some (match t.dyn with
        | .httpTransport => { w with transports := w.transports.set p t.CloseIdleConnections }
        | .custom _ => w) := by
  simp only [standardRoundTripperAdapter.closeConns, h]
  cases t.dyn <;> rfl

theorem usable_of_lengths (t : requestRoundTripper) (w w1 : World) (h : t.Usable w)
    (h1 : w1.transports.length = w.transports.length)
    (h2 : w1.roundTrippers.length = w.roundTrippers.length) : t.Usable w1 := by
  cases t with
  | adapter a =>
    obtain ⟨p, hp, hlt⟩ := h
    exact ⟨p, hp, by rw [h1]; exact hlt⟩
  | fingerprint p =>
    show p < w1.roundTrippers.length
    rw [h2]
    exact h

/-- Two calls of `closeConns` in a row on a transport that can be called: neither panics, the
first leaves the done flags alone and the transport callable, and the second changes
nothing. -/
theorem closeConns_twice (t : requestRoundTripper) (w : World) (h : t.Usable w) :
    ∃ wa wb, t.closeConns w = some wa ∧ t.closeConns wa = some wb
      ∧ wa.ctxDone = w.ctxDone ∧ t.Usable wa
      ∧ wb = wa := by
  cases t with
  | adapter a =>
    obtain ⟨p, hp, hlt⟩ := h
    obtain ⟨tr⟩ := a
    simp only at hp
    subst hp
    obtain ⟨t0, ht0⟩ : ∃ t0, w.transports[p]? = some t0 :=
      ⟨w.transports[p], List.getElem?_eq_getElem hlt⟩
    cases hd : t0.dyn with
    | custom b =>
      have h1 : standardRoundTripperAdapter.closeConns { tr := RoundTripper.obj p } w
          = some w := by
        rw [adapter_closeConns_obj p w t0 ht0, hd]
      exact ⟨w, w, h1, h1, rfl, ⟨p, rfl, hlt⟩, rfl⟩
    | httpTransport =>
      have h1 : standardRoundTripperAdapter.closeConns { tr := RoundTripper.obj p } w
          = some { w with transports := w.transports.set p t0.CloseIdleConnections } := by
        rw [adapter_closeConns_obj p w t0 ht0, hd]
      have hget : ({ w with transports := w.transports.set p t0.CloseIdleConnections }
          : World).transports[p]? = some t0.CloseIdleConnections := by
        simp [hlt]
      have h2 : standardRoundTripperAdapter.closeConns { tr := RoundTripper.obj p }
          { w with transports := w.transports.set p t0.CloseIdleConnections }
          = some { w with transports := w.transports.set p t0.CloseIdleConnections } := by
        rw [adapter_closeConns_obj p _ t0.CloseIdleConnections hget]
        have hd2 : t0.CloseIdleConnections.dyn = DynType.httpTransport := hd
        rw [hd2]
        simp [TransportObj.CloseIdleConnections]
      exact ⟨_, _, h1, h2, rfl, ⟨p, rfl, by simpa using hlt⟩, rfl⟩
  | fingerprint p =>
    have hlt : p < w.roundTrippers.length := h
    obtain ⟨r, hr⟩ : ∃ r, w.roundTrippers[p]? = some r :=
      ⟨w.roundTrippers[p], List.getElem?_eq_getElem hlt⟩
    have h1 : roundTripper.closeConns p w
        = some { w with roundTrippers := w.roundTrippers.set p { r with pools := 0 } } := by
      simp [roundTripper.closeConns, hr]
    have h2 : roundTripper.closeConns p
        { w with roundTrippers := w.roundTrippers.set p { r with pools := 0 } }
        = some { w with roundTrippers := w.roundTrippers.set p { r with pools := 0 } } := by
      simp [roundTripper.closeConns, hlt]
    refine ⟨_, _, h1, h2, rfl, ?_, rfl⟩
    show p < (w.roundTrippers.set p _).length
    simpa using hlt

theorem closeConns_cancel_comm (t : requestRoundTripper) (id : Ptr) (w : World) :
    t.closeConns (CancelFunc.call id w) = (t.closeConns w).map (CancelFunc.call id) := by
  cases t with
  | adapter a =>
    obtain ⟨tr⟩ := a
    cases tr with
    | nilHttpTransport => rfl
    | obj p =>
      simp only [requestRoundTripper.closeConns, standardRoundTripperAdapter.closeConns,
        CancelFunc.call]
      cases h : w.transports[p]? with
      | none => rfl
      | some t => cases hd : t.dyn <;> simp [hd, CancelFunc.call]
  | fingerprint p =>
    simp only [requestRoundTripper.closeConns, roundTripper.closeConns, CancelFunc.call]
    cases h : w.roundTrippers[p]? <;> simp [CancelFunc.call]

theorem cancel_sets_flag (id : Ptr) (w : World) (h : id < w.ctxDone.length) :
    (CancelFunc.call id w).ctxDone[id]? = some true := by
  simp [CancelFunc.call, h]

theorem cancel_keeps_flag (id k : Ptr) (w : World) (h : w.ctxDone[k]? = some true) :
    (CancelFunc.call id w).ctxDone[k]? = some true := by
  have hlt : k < w.ctxDone.length := getElem?_lt _ _ _ h
  simp only [CancelFunc.call]
  by_cases hk : id = k
  · subst hk
    simp [hlt]
  · rw [List.getElem?_set_ne hk]
    exact h

theorem cancel_of_set (id : Ptr) (w : World) (h : w.ctxDone[id]? = some true) :
    CancelFunc.call id w = w := by
  simp only [CancelFunc.call, set_same w.ctxDone id true h]

theorem cancel_usable (t : requestRoundTripper) (id : Ptr) (w : World) (h : t.Usable w) :
    t.Usable (CancelFunc.call id w) :=
  usable_of_lengths t w _ h rfl rfl

theorem NewClient_built (env : Env) (preCtx : Option Context) (options : List ClientOption)
    (w : World)
    (husable : ∀ (o : ClientOption) (os : List ClientOption) (tr : RoundTripper),
      options = o :: os → o.Transport = some tr →
      ∃ p, tr = RoundTripper.obj p ∧ p < w.transports.length) :
    (NewClient env preCtx options w).1.1.Built (NewClient env preCtx options w).2 := by
  have hc := NewClient_ctx env preCtx options w
  have ht := NewClient_transport env preCtx options w
  have hflag : w.ctxDone.length < (NewClient env preCtx options w).2.ctxDone.length := by
    rw [hc.2.2.2.1]
    simp
  cases hT : (NewClient.option options).Transport with
  | none =>
    rw [hT] at ht
    refine ⟨_, _, _, ht.1, ?_, hc.2.1, hc.1, hflag⟩
    show w.roundTrippers.length < (NewClient env preCtx options w).2.roundTrippers.length
    rw [ht.2]
    simp
  | some tr =>
    rw [hT] at ht
    refine ⟨_, _, _, ht.1, ?_, hc.2.1, hc.1, hflag⟩
    cases options with
    | nil => cases hT
    | cons o os =>
      obtain ⟨p, hp, hlt⟩ := husable o os tr rfl hT
      exact ⟨p, hp, by rw [hc.2.2.2.2]; exact hlt⟩

theorem Close_of_built (c : Client) (w : World) (h : c.Built w) :
    ∃ t id wa, c.transport = some t ∧ c.cnl = some id ∧ t.closeConns w = some wa
      ∧ c.Close w = some ({ c with closed := true }, CancelFunc.call id wa)
      ∧ Client.Shut { c with closed := true } (CancelFunc.call id wa) := by
  obtain ⟨t, id, parent, ht, hu, hid, hctx, hlt⟩ := h
  obtain ⟨wa, _, hwa, _, hdone, hua, _⟩ := closeConns_twice t w hu
  refine ⟨t, id, wa, ht, hid, hwa, ?_, rfl, t, id, parent, ht, cancel_usable t id wa hua, hid,
    hctx, ?_⟩
  · simp [Client.Close, Client.CloseConns, ht, hid, hwa]
  · exact cancel_sets_flag id _ (by rw [hdone]; exact hlt)

theorem Shut_built (c : Client) (w : World) (h : c.Shut w) : c.Built w := by
  obtain ⟨_, t, id, parent, ht, hu, hid, hctx, hflag⟩ := h
  exact ⟨t, id, parent, ht, hu, hid, hctx, getElem?_lt _ _ _ hflag⟩

theorem Shut_done (c : Client) (w : World) (h : c.Shut w) :
    c.closed = true ∧ ∃ ctx, c.ctx = some ctx ∧ ctx.done w = true := by
  obtain ⟨hcl, t, id, parent, ht, hu, hid, hctx, hflag⟩ := h
  exact ⟨hcl, _, hctx, by simp [Context.done, hflag]⟩

theorem run_keeps_built (call : LifecycleCall) (c : Client) (w : World)
    (h : c.Built w) : ∃ c1 w1, call.run (c, w) = some (c1, w1) ∧ c1.Built w1 := by
  cases call with
  | Close =>
    obtain ⟨t, id, wa, _, _, _, hclose, hshut⟩ := Close_of_built c w h
    exact ⟨_, _, hclose, Shut_built _ _ hshut⟩
  | CloseConns =>
    obtain ⟨t, id, parent, ht, hu, hid, hctx, hlt⟩ := h
    obtain ⟨wa, _, hwa, _, hdone, hua, _⟩ := closeConns_twice t w hu
    refine ⟨c, wa, ?_, t, id, parent, ht, hua, hid, hctx, ?_⟩
    · simp [LifecycleCall.run, Client.CloseConns, ht, hwa]
    · rw [hdone]
      exact hlt

theorem run_keeps_shut (call : LifecycleCall) (c : Client) (w : World)
    (h : c.Shut w) : ∃ c1 w1, call.run (c, w) = some (c1, w1) ∧ c1.Shut w1 := by
  obtain ⟨hcl, t, id, parent, ht, hu, hid, hctx, hflag⟩ := h
  obtain ⟨wa, _, hwa, _, hdone, hua, _⟩ := closeConns_twice t w hu
  cases call with
  | Close =>
    refine ⟨{ c with closed := true }, CancelFunc.call id wa, ?_, rfl,
      t, id, parent, ht, cancel_usable t id wa hua, hid, hctx, ?_⟩
    · simp [LifecycleCall.run, Client.Close, Client.CloseConns, ht, hid, hwa]
    · apply cancel_keeps_flag
      rw [hdone]
      exact hflag
  | CloseConns =>
    refine ⟨c, wa, ?_, hcl, t, id, parent, ht, hua, hid, hctx, ?_⟩
    · simp [LifecycleCall.run, Client.CloseConns, ht, hwa]
    · rw [hdone]
      exact hflag

theorem runCalls_keeps_built (calls : List LifecycleCall) :
    ∀ (c : Client) (w : World), c.Built w →
      ∃ c1 w1, runCalls calls (c, w) = some (c1, w1) ∧ c1.Built w1 := by
  induction calls with
  | nil => exact fun c w h => ⟨c, w, rfl, h⟩
  | cons call calls ih =>
    intro c w h
    obtain ⟨c1, w1, hrun, hb⟩ := run_keeps_built call c w h
    obtain ⟨c2, w2, hrest, hb2⟩ := ih c1 w1 hb
    exact ⟨c2, w2, by simp [runCalls, hrun, hrest], hb2⟩

theorem runCalls_keeps_shut (calls : List LifecycleCall) :
    ∀ (c : Client) (w : World), c.Shut w →
      ∃ c1 w1, runCalls calls (c, w) = some (c1, w1) ∧ c1.Shut w1 := by
  induction calls with
  | nil => exact fun c w h => ⟨c, w, rfl, h⟩
  | cons call calls ih =>
    intro c w h
    obtain ⟨c1, w1, hrun, hb⟩ := run_keeps_shut call c w h
    obtain ⟨c2, w2, hrest, hb2⟩ := ih c1 w1 hb
    exact ⟨c2, w2, by simp [runCalls, hrun, hrest], hb2⟩

/-- Two calls of `Close` in a row on a built client: the second returns what the first
returned. -/
theorem Close_twice (c : Client) (w : World) (h : c.Built w) :
    ∃ c1 w1, c.Close w = some (c1, w1) ∧ c1.Shut w1 ∧ c1.Close w1 = some (c1, w1) := by
  obtain ⟨t, id, parent, ht, hu, hid, hctx, hlt⟩ := h
  obtain ⟨wa, wb, hwa, hwb, hdone, hua, hba⟩ := closeConns_twice t w hu
  subst hba
  have hflag : (CancelFunc.call id wb).ctxDone[id]? = some true :=
    cancel_sets_flag id wb (by rw [hdone]; exact hlt)
  have hsecond : t.closeConns (CancelFunc.call id wb) = some (CancelFunc.call id wb) := by
    rw [closeConns_cancel_comm, hwb]
    rfl
  refine ⟨{ c with closed := true }, CancelFunc.call id wb, ?_,
    ⟨rfl, t, id, parent, ht, cancel_usable t id wb hua, hid, hctx, hflag⟩, ?_⟩
  · simp [Client.Close, Client.CloseConns, ht, hid, hwa]
  · simp [Client.Close, Client.CloseConns, ht, hid, hsecond, cancel_of_set id _ hflag]

/-- C6, the claim as stated fails: a client built around the nil pointer of type
`*http.Transport` (a non-nil interface, so `NewClient` wraps it in the adapter) panics in
`Close` and in `CloseConns`: the type assertion in `closeConns` holds and
`CloseIdleConnections` is called on the nil pointer. -/
theorem Close_panics_on_nil_httpTransport :
    (NewClient sampleEnv none [nilTransportOption] World.empty).1.1.transport
      = some (requestRoundTripper.adapter { tr := RoundTripper.nilHttpTransport })
    ∧ (NewClient sampleEnv none [nilTransportOption] World.empty).1.1.closed = false
    ∧ (NewClient sampleEnv none [nilTransportOption] World.empty).1.1.Close
        (NewClient sampleEnv none [nilTransportOption] World.empty).2 = none
    ∧ (NewClient sampleEnv none [nilTransportOption] World.empty).1.1.CloseConns
        (NewClient sampleEnv none [nilTransportOption] World.empty).2 = none :=
  ⟨rfl, rfl, rfl, rfl⟩

/-- C6 as amended: take a client built by `NewClient` from options whose transport, if the
first option names one, is a pointer to a transport object (not the nil `*http.Transport`),
in any state that calls of `CloseConns` and `Close` lead to (the Ready state is the one no
call has been made in). No call panics. After `Close` the flag `closed` is true and the
lifetime scope is done. A second `Close` does not panic and returns the same client and the
same world as the first: nothing more changes. After any further calls of `Close` and
`CloseConns`, `closed` is still true and the scope is still done. -/
theorem Client_Close_idempotent (env : Env) (preCtx : Option Context)
    (options : List ClientOption) (w : World) (before later : List LifecycleCall)
    (husable : ∀ (o : ClientOption) (os : List ClientOption) (tr : RoundTripper),
      options = o :: os → o.Transport = some tr →
      ∃ p, tr = RoundTripper.obj p ∧ p < w.transports.length) :
    ∃ c0 w0 c1 w1,
      runCalls before
          ((NewClient env preCtx options w).1.1, (NewClient env preCtx options w).2)
        = some (c0, w0)
      ∧ c0.Close w0 = some (c1, w1)
      ∧ c1.closed = true
      ∧ (∃ ctx, c1.ctx = some ctx ∧ ctx.done w1 = true)
      ∧ c1.Close w1 = some (c1, w1)
      ∧ (∃ c3 w3, runCalls later (c1, w1) = some (c3, w3) ∧ c3.closed = true
          ∧ ∃ ctx, c3.ctx = some ctx ∧ ctx.done w3 = true) := by
  obtain ⟨c0, w0, hrun, hb⟩ :=
    runCalls_keeps_built before _ _ (NewClient_built env preCtx options w husable)
  obtain ⟨c1, w1, hclose, hshut, hclose2⟩ := Close_twice c0 w0 hb
  have hdone := Shut_done _ _ hshut
  obtain ⟨c3, w3, hrun3, hshut3⟩ := runCalls_keeps_shut later _ _ hshut
  have hdone3 := Shut_done _ _ hshut3
  exact ⟨c0, w0, c1, w1, hrun, hclose, hdone.1, hdone.2, hclose2,
    ⟨c3, w3, hrun3, hdone3.1, hdone3.2⟩⟩

/-- C6 as amended, at two clients. The first is built around a standard `*http.Transport`
with three idle connections: `Close` releases them, and `Close` twice gives exactly what
`Close` once gives. The second is built with no option, with a fingerprinting transport that
holds three pooled connections: `Close` releases them, and again `Close` twice gives exactly
what `Close` once gives. -/
theorem Client_Close_twice_sample :
    (∀ (o : ClientOption) (os : List ClientOption) (tr : RoundTripper),
      [firstTransportOption] = o :: os → o.Transport = some tr →
      ∃ p, tr = RoundTripper.obj p ∧ p < (World.ofTransport idleHttpTransport).transports.length)
    ∧ ((NewClient sampleEnv none [firstTransportOption]
          (World.ofTransport idleHttpTransport)).2.transports.map (fun t => t.idle)) = [3]
    ∧ (((NewClient sampleEnv none [firstTransportOption]
          (World.ofTransport idleHttpTransport)).1.1.Close
        (NewClient sampleEnv none [firstTransportOption]
          (World.ofTransport idleHttpTransport)).2).map
          (fun s => (s.1.closed, s.2.transports.map (fun t => t.idle)))) = some (true, [0])
    ∧ (((NewClient sampleEnv none [firstTransportOption]
          (World.ofTransport idleHttpTransport)).1.1.Close
        (NewClient sampleEnv none [firstTransportOption]
          (World.ofTransport idleHttpTransport)).2).bind (fun s => s.1.Close s.2))
        = (NewClient sampleEnv none [firstTransportOption]
          (World.ofTransport idleHttpTransport)).1.1.Close
        (NewClient sampleEnv none [firstTransportOption]
          (World.ofTransport idleHttpTransport)).2
    ∧ ((NewClient sampleEnv none [] World.empty).2.roundTrippers.map (fun r => r.pools)) = [3]
    ∧ (((NewClient sampleEnv none [] World.empty).1.1.Close
        (NewClient sampleEnv none [] World.empty).2).map
          (fun s => (s.1.closed, s.2.roundTrippers.map (fun r => r.pools)))) = some (true, [0])
    ∧ (((NewClient sampleEnv none [] World.empty).1.1.Close
        (NewClient sampleEnv none [] World.empty).2).bind (fun s => s.1.Close s.2))
        = (NewClient sampleEnv none [] World.empty).1.1.Close
        (NewClient sampleEnv none [] World.empty).2 := by
  have hyp : ∀ (o : ClientOption) (os : List ClientOption) (tr : RoundTripper),
      [firstTransportOption] = o :: os → o.Transport = some tr →
      ∃ p, tr = RoundTripper.obj p
        ∧ p < (World.ofTransport idleHttpTransport).transports.length := by
    intro o os tr h ht
    cases h
    cases ht
    exact ⟨0, rfl, by decide⟩
  have hyp0 : ∀ (o : ClientOption) (os : List ClientOption) (tr : RoundTripper),
      ([] : List ClientOption) = o :: os → o.Transport = some tr →
      ∃ p, tr = RoundTripper.obj p ∧ p < World.empty.transports.length := by
    intro o os tr h
    cases h
  refine ⟨hyp, rfl, rfl, ?_, rfl, rfl, ?_⟩
  · obtain ⟨c0, w0, c1, w1, h0, h1, _, _, h2, _⟩ :=
      Client_Close_idempotent sampleEnv none [firstTransportOption]
        (World.ofTransport idleHttpTransport) [] [] hyp
    simp only [runCalls, Option.some.injEq, Prod.mk.injEq] at h0
    obtain ⟨hc0, hw0⟩ := h0
    subst hc0 hw0
    rw [h1]
    simp only [Option.bind]
    rw [h2]
  · obtain ⟨c0, w0, c1, w1, h0, h1, _, _, h2, _⟩ :=
      Client_Close_idempotent sampleEnv none [] World.empty [] [] hyp0
    simp only [runCalls, Option.some.injEq, Prod.mk.injEq] at h0
    obtain ⟨hc0, hw0⟩ := h0
    subst hc0 hw0
    rw [h1]
    simp only [Option.bind]
    rw [h2]

/-! ## Releasing idle connections -/

/-- C7, the claim as stated fails, twice. A transport of the caller's own type that has a
method `CloseIdleConnections` and three idle connections still has its three idle
connections after `closeConns`: the call was not forwarded. And with the nil pointer of type
`*http.Transport` as the wrapped transport `closeConns` panics: the type assertion holds and
`CloseIdleConnections` is called on the nil pointer. -/
theorem closeConns_skips_custom_closeIdler :
    (World.ofTransport pooledTransport).transports[0]? = some pooledTransport
    ∧ pooledTransport.closeIdler = true
    ∧ ((standardRoundTripperAdapter.closeConns { tr := RoundTripper.obj 0 }
          (World.ofTransport pooledTransport)).map
            (fun w => w.transports.map (fun t => t.idle))) = some [3]
    ∧ ¬ ForwardsWhenExposed { tr := RoundTripper.obj 0 } (World.ofTransport pooledTransport)
    ∧ standardRoundTripperAdapter.closeConns { tr := RoundTripper.nilHttpTransport }
        World.empty = none
    ∧ ¬ NeverPanics { tr := RoundTripper.nilHttpTransport } World.empty := by
  refine ⟨rfl, rfl, rfl, fun h => ?_, rfl, fun h => ?_⟩
  · obtain ⟨w1, h1, h2⟩ := h 0 pooledTransport rfl rfl rfl
    have h3 : standardRoundTripperAdapter.closeConns { tr := RoundTripper.obj 0 }
        (World.ofTransport pooledTransport) = some (World.ofTransport pooledTransport) := rfl
    rw [h3] at h1
    have h4 : World.ofTransport pooledTransport = w1 := Option.some.inj h1
    subst h4
    have h5 : some pooledTransport = some pooledTransport.CloseIdleConnections := h2
    have h6 := congrArg (fun t => t.idle) (Option.some.inj h5)
    simp [pooledTransport, TransportObj.CloseIdleConnections] at h6
  · obtain ⟨w1, h1⟩ := h
    have h2 : standardRoundTripperAdapter.closeConns { tr := RoundTripper.nilHttpTransport }
        World.empty = none := rfl
    rw [h2] at h1
    cases h1

/-- C7 as amended: with the wrapped transport a transport object (not the nil
`*http.Transport`), `closeConns` of the adapter calls `CloseIdleConnections` on it exactly
when its dynamic type is `*http.Transport`, and does nothing at all for a transport of any
other type. In both cases it does not panic, no transport object is removed or replaced
(each keeps its type, its answers and its record of requests), and a `RoundTrip` through the
adapter right after does not panic and returns what it would have returned before. -/
theorem adapter_closeConns_httpTransport_only (p : Ptr) (w : World) (t : TransportObj)
    (h : w.transports[p]? = some t) :
    (t.dyn = DynType.httpTransport →
        standardRoundTripperAdapter.closeConns { tr := RoundTripper.obj p } w
          = some { w with transports := w.transports.set p t.CloseIdleConnections })
    ∧ (t.dyn ≠ DynType.httpTransport →
        standardRoundTripperAdapter.closeConns { tr := RoundTripper.obj p } w = some w)
    ∧ ∃ w1, standardRoundTripperAdapter.closeConns { tr := RoundTripper.obj p } w = some w1
        ∧ w1.transports.length = w.transports.length
        ∧ (∀ (q : Ptr) (u : TransportObj), w.transports[q]? = some u →
            ∃ u1 : TransportObj, w1.transports[q]? = some u1
              ∧ u1.dyn = u.dyn ∧ u1.reply = u.reply ∧ u1.calls = u.calls)
        ∧ (∀ (env : Env) (resp : Response), ∃ out wr wr1,
            standardRoundTripperAdapter.RoundTrip env { tr := RoundTripper.obj p } resp w
              = some (out, wr)
            ∧ standardRoundTripperAdapter.RoundTrip env { tr := RoundTripper.obj p } resp w1
              = some (out, wr1)) := by
  have hlt : p < w.transports.length := getElem?_lt _ _ _ h
  have hobj := adapter_closeConns_obj p w t h
  have hbefore : ∀ (env : Env) (resp : Response), ∃ out wr,
      standardRoundTripperAdapter.RoundTrip env { tr := RoundTripper.obj p } resp w
        = some (out, wr) := by
    intro env resp
    simp only [standardRoundTripperAdapter.RoundTrip, http.RoundTripper.RoundTrip, h]
    cases hr : (t.reply (env.Request resp)).2 <;> simp
  cases hd : t.dyn with
  | custom b =>
    rw [hd] at hobj
    refine ⟨?_, fun _ => hobj, w, hobj, rfl, ?_, ?_⟩
    · intro hc
      cases hc
    · intro q u hq
      exact ⟨u, hq, rfl, rfl, rfl⟩
    · intro env resp
      obtain ⟨out, wr, hrt⟩ := hbefore env resp
      exact ⟨out, wr, wr, hrt, hrt⟩
  | httpTransport =>
    rw [hd] at hobj
    refine ⟨fun _ => hobj, fun hc => absurd rfl hc, _, hobj, by simp, ?_, ?_⟩
    · intro q u hq
      by_cases hpq : p = q
      · subst hpq
        have htu : t = u := Option.some.inj (h.symm.trans hq)
        subst htu
        exact ⟨t.CloseIdleConnections, by simp [hlt], rfl, rfl, rfl⟩
      · exact ⟨u, by simp [List.getElem?_set_ne hpq, hq], rfl, rfl, rfl⟩
    · intro env resp
      simp only [standardRoundTripperAdapter.RoundTrip, http.RoundTripper.RoundTrip, h,
        List.getElem?_set_self hlt]
      cases hr : (t.reply (env.Request resp)).2 <;>
        simp [TransportObj.CloseIdleConnections, hr]

/-- C7 as amended, at a standard `*http.Transport` with three idle connections: after
`closeConns` it has none. -/
theorem adapter_closeConns_httpTransport_sample :
    (World.ofTransport idleHttpTransport).transports[0]? = some idleHttpTransport
    ∧ idleHttpTransport.dyn = DynType.httpTransport
    ∧ ((standardRoundTripperAdapter.closeConns { tr := RoundTripper.obj 0 }
          (World.ofTransport idleHttpTransport)).map
            (fun w => w.transports.map (fun t => t.idle))) = some [0] :=
  ⟨rfl, rfl, by
    rw [(adapter_closeConns_httpTransport_only 0
      (World.ofTransport idleHttpTransport) idleHttpTransport rfl).1 rfl]
    rfl⟩

end Requests
